/-
Verification of the query and analytics engine of a smart-home device/log
management service (Flask + MongoDB backend).

The development shallowly embeds the relevant Python functions:
  * `backend/utils.py`: `objectid_to_str`, `parse_datetime`,
    `validate_location`, `build_query_filters`
  * `backend/models.py`: `Device.create`, `DeviceLog.create`
  * `backend/routes/device_routes.py`: `create_device`, `get_nearby_devices`
  * `backend/routes/log_routes.py`: `create_log`, `get_log_stats`
    (hourly bucketing and per-device frequency pipelines), `search_logs`

Machine datetimes are modelled as calendar records (`DT`); the document
store's millisecond encoding of a datetime is `DT.toMillis` (the civil-days
algorithm).  MongoDB documents that can contain ObjectIds are modelled by
the inductive `Val`.  Aggregation pipelines are modelled as pure functions
over lists of documents; the `$group` stage enumerates keys in first
occurrence order, and `$sort` is insertion sort with respect to the sort
relation (the order among ties is unspecified by the store; none of the
proved statements depend on it).
-/
import Mathlib

namespace SmartHome

/-! ## BSON-like values and the Response Normalizer (`objectid_to_str`) -/

/-- A nested store value: an ObjectId (carrying its 24-hex-char string
representation), a string, an integer, a boolean, a mapping or a sequence.
Mirrors the values `objectid_to_str` in `utils.py` can receive. -/
inductive Val where
  | oid (s : String)
  | str (s : String)
  | intV (n : Int)
  | boolV (b : Bool)
  | dict (kvs : List (String × Val))
  | arr (xs : List Val)

mutual

/-- `utils.objectid_to_str`: recursively replace every ObjectId by its
string representation; recurse into dict values and list elements; return
every other value unchanged. -/
def objectid_to_str : Val → Val
  | .oid s => .str s
  | .str s => .str s
  | .intV n => .intV n
  | .boolV b => .boolV b
  | .dict kvs => .dict (objectid_to_str_pairs kvs)
  | .arr xs => .arr (objectid_to_str_elems xs)

/-- Value-wise action of `objectid_to_str` on the entries of a dict. -/
def objectid_to_str_pairs : List (String × Val) → List (String × Val)
  | [] => []
  | (k, v) :: kvs => (k, objectid_to_str v) :: objectid_to_str_pairs kvs

/-- Element-wise action of `objectid_to_str` on a list. -/
def objectid_to_str_elems : List Val → List Val
  | [] => []
  | v :: vs => objectid_to_str v :: objectid_to_str_elems vs

end

mutual

/-- Whether a value contains an ObjectId anywhere (dicts and lists). -/
def Val.hasOid : Val → Bool
  | .oid _ => true
  | .str _ => false
  | .intV _ => false
  | .boolV _ => false
  | .dict kvs => Val.hasOidPairs kvs
  | .arr xs => Val.hasOidElems xs

/-- `Val.hasOid` over the entries of a dict. -/
def Val.hasOidPairs : List (String × Val) → Bool
  | [] => false
  | (_, v) :: kvs => Val.hasOid v || Val.hasOidPairs kvs

/-- `Val.hasOid` over the elements of a list. -/
def Val.hasOidElems : List Val → Bool
  | [] => false
  | v :: vs => Val.hasOid v || Val.hasOidElems vs

end

mutual

theorem objectid_to_str_idem_aux : ∀ v : Val,
    objectid_to_str (objectid_to_str v) = objectid_to_str v
  | .oid _ => rfl
  | .str _ => rfl
  | .intV _ => rfl
  | .boolV _ => rfl
  | .dict kvs => by
      simp only [objectid_to_str, objectid_to_str_pairs_idem_aux kvs]
  | .arr xs => by
      simp only [objectid_to_str, objectid_to_str_elems_idem_aux xs]

theorem objectid_to_str_pairs_idem_aux : ∀ kvs : List (String × Val),
    objectid_to_str_pairs (objectid_to_str_pairs kvs) = objectid_to_str_pairs kvs
  | [] => rfl
  | (k, v) :: kvs => by
      simp only [objectid_to_str_pairs, objectid_to_str_idem_aux v,
        objectid_to_str_pairs_idem_aux kvs]

theorem objectid_to_str_elems_idem_aux : ∀ xs : List Val,
    objectid_to_str_elems (objectid_to_str_elems xs) = objectid_to_str_elems xs
  | [] => rfl
  | v :: vs => by
      simp only [objectid_to_str_elems, objectid_to_str_idem_aux v,
        objectid_to_str_elems_idem_aux vs]

end

mutual

theorem objectid_to_str_no_oid_aux : ∀ v : Val,
    Val.hasOid (objectid_to_str v) = false
  | .oid _ => rfl
  | .str _ => rfl
  | .intV _ => rfl
  | .boolV _ => rfl
  | .dict kvs => by
      simp only [objectid_to_str, Val.hasOid, objectid_to_str_no_oid_pairs_aux kvs]
  | .arr xs => by
      simp only [objectid_to_str, Val.hasOid, objectid_to_str_no_oid_elems_aux xs]

theorem objectid_to_str_no_oid_pairs_aux : ∀ kvs : List (String × Val),
    Val.hasOidPairs (objectid_to_str_pairs kvs) = false
  | [] => rfl
  | (k, v) :: kvs => by
      simp only [objectid_to_str_pairs, Val.hasOidPairs,
        objectid_to_str_no_oid_aux v, objectid_to_str_no_oid_pairs_aux kvs,
        Bool.or_self]

theorem objectid_to_str_no_oid_elems_aux : ∀ xs : List Val,
    Val.hasOidElems (objectid_to_str_elems xs) = false
  | [] => rfl
  | v :: vs => by
      simp only [objectid_to_str_elems, Val.hasOidElems,
        objectid_to_str_no_oid_aux v, objectid_to_str_no_oid_elems_aux vs,
        Bool.or_self]

end

/-! ## Datetimes and the Temporal Parser (`parse_datetime`) -/

/-- A naive calendar datetime, as produced by Python's
`datetime.strptime` / `datetime.utcnow` (year, month, day, hour, minute,
second, microsecond). -/
structure DT where
  year : Nat
  month : Nat
  day : Nat
  hour : Nat
  minute : Nat
  second : Nat
  micro : Nat
deriving DecidableEq, Repr

/-- Gregorian leap-year rule. -/
def isLeapYear (y : Nat) : Bool :=
  (y % 4 = 0 && y % 100 ≠ 0) || y % 400 = 0

/-- Number of days of month `m` in year `y`. -/
def daysInMonth (y m : Nat) : Nat :=
  if m = 2 then (if isLeapYear y then 29 else 28)
  else if m = 4 || m = 6 || m = 9 || m = 11 then 30 else 31

/-- The checks Python's `datetime` constructor performs beyond what the
`strptime` field patterns already guarantee: `MINYEAR ≤ year`, the day
exists in the month, and the (possibly leap-) second is at most 59. -/
def dtValid (t : DT) : Bool :=
  decide (1 ≤ t.year) && decide (t.day ≤ daysInMonth t.year t.month) &&
    decide (t.second ≤ 59)

/-- Numeric value of a decimal digit character. -/
def digitVal (c : Char) : Nat := c.toNat - '0'.toNat

/-- `%Y`: exactly four decimal digits (the `strptime` pattern for `%Y`). -/
def parseYear : List Char → Option (Nat × List Char)
  | a :: b :: c :: d :: rest =>
    if a.isDigit && b.isDigit && c.isDigit && d.isDigit then
      some (((digitVal a * 10 + digitVal b) * 10 + digitVal c) * 10 + digitVal d,
        rest)
    else none
  | _ => none

/-- A one- or two-digit numeric field.  Python's `strptime` compiles
`%m`/`%d`/`%H`/`%M`/`%S` to a regex alternation that accepts a two-digit
value between `lo2` and `hi2`, falling back to one digit of value at least
`lo1` (e.g. `%m` is `1[0-2]|0[1-9]|[1-9]`: two digits in 1..12, else one
digit in 1..9). -/
def parseNum2 (lo2 hi2 lo1 : Nat) : List Char → Option (Nat × List Char)
  | a :: b :: rest =>
    if a.isDigit then
      if b.isDigit then
        let v := digitVal a * 10 + digitVal b
        if lo2 ≤ v && v ≤ hi2 then some (v, rest)
        else if lo1 ≤ digitVal a then some (digitVal a, b :: rest)
        else none
      else if lo1 ≤ digitVal a then some (digitVal a, b :: rest)
      else none
    else none
  | [a] =>
    if a.isDigit && lo1 ≤ digitVal a then some (digitVal a, []) else none
  | [] => none

/-- A literal character of the format string.  `strptime` compiles its
regex with `IGNORECASE`, so a cased literal also matches the other case. -/
def parseLit (c : Char) : List Char → Option (Unit × List Char)
  | x :: rest => if x = c || x = c.toLower then some ((), rest) else none
  | [] => none

/-- A whitespace character in the format string: `strptime` rewrites it to
the regex `\s+`, a run of one or more whitespace characters (modelled as
space, tab, CR, LF). -/
def parseWhite : List Char → Option (Unit × List Char)
  | x :: rest =>
    if x.isWhitespace then some ((), rest.dropWhile Char.isWhitespace) else none
  | [] => none

/-- Value of a big-endian list of decimal digits. -/
def digitsToNat (ds : List Char) : Nat :=
  ds.foldl (fun acc c => acc * 10 + digitVal c) 0

/-- `%f`: one to six decimal digits (greedy), right-padded with zeros to a
microsecond count, exactly as `strptime` does (`[0-9]{1,6}` then
`int(s + "0" * (6 - len(s)))`). -/
def parseFrac (cs : List Char) : Option (Nat × List Char) :=
  let ds := (cs.takeWhile Char.isDigit).take 6
  if ds.length = 0 then none
  else some (digitsToNat ds * 10 ^ (6 - ds.length), cs.drop ds.length)

/-- The common `%Y-%m-%d` prefix of all six formats. -/
def parseDatePart (cs : List Char) : Option ((Nat × Nat × Nat) × List Char) := do
  let (y, cs) ← parseYear cs
  let (_, cs) ← parseLit '-' cs
  let (mo, cs) ← parseNum2 1 12 1 cs
  let (_, cs) ← parseLit '-' cs
  let (d, cs) ← parseNum2 1 31 1 cs
  pure ((y, mo, d), cs)

/-- The `%H:%M` part shared by the five formats with a time component. -/
def parseHourMin (cs : List Char) : Option ((Nat × Nat) × List Char) := do
  let (h, cs) ← parseNum2 0 23 0 cs
  let (_, cs) ← parseLit ':' cs
  let (mi, cs) ← parseNum2 0 59 0 cs
  pure ((h, mi), cs)

/-- Final step of a `strptime` call: the whole input must be consumed
("unconverted data remains" otherwise) and the parsed fields must form a
constructible `datetime`; both failures raise `ValueError`, which
`parse_datetime` turns into trying the next format. -/
def finishFormat (y mo d h mi sec micro : Nat) (rest : List Char) : Option DT :=
  if rest.isEmpty then
    let t : DT := ⟨y, mo, d, h, mi, sec, micro⟩
    if dtValid t then some t else none
  else none

/-- The six format strings tried by `utils.parse_datetime`, in source
order. -/
inductive TimeFormat where
  /-- `'%Y-%m-%dT%H:%M:%S'` -/
  | tSec
  /-- `'%Y-%m-%dT%H:%M:%S.%f'` -/
  | tMicro
  /-- `'%Y-%m-%d %H:%M:%S'` -/
  | spaceSec
  /-- `'%Y-%m-%d %H:%M'` -/
  | spaceMin
  /-- `'%Y-%m-%dT%H:%M'` -/
  | tMin
  /-- `'%Y-%m-%d'` -/
  | dateOnly
deriving DecidableEq, Repr

/-- `datetime.strptime(s, fmt)` for the six formats of `parse_datetime`
(`None` models a `ValueError`).  `%S` accepts two-digit values up to 61
(leap seconds) at the pattern level; values 60 and 61 are then rejected by
the `datetime` constructor (`finishFormat`). -/
def strptime (f : TimeFormat) (s : String) : Option DT :=
  let cs := s.toList
  match f with
  | .tSec => do
      let ((y, mo, d), cs) ← parseDatePart cs
      let (_, cs) ← parseLit 'T' cs
      let ((h, mi), cs) ← parseHourMin cs
      let (_, cs) ← parseLit ':' cs
      let (sec, cs) ← parseNum2 0 61 0 cs
      finishFormat y mo d h mi sec 0 cs
  | .tMicro => do
      let ((y, mo, d), cs) ← parseDatePart cs
      let (_, cs) ← parseLit 'T' cs
      let ((h, mi), cs) ← parseHourMin cs
      let (_, cs) ← parseLit ':' cs
      let (sec, cs) ← parseNum2 0 61 0 cs
      let (_, cs) ← parseLit '.' cs
      let (micro, cs) ← parseFrac cs
      finishFormat y mo d h mi sec micro cs
  | .spaceSec => do
      let ((y, mo, d), cs) ← parseDatePart cs
      let (_, cs) ← parseWhite cs
      let ((h, mi), cs) ← parseHourMin cs
      let (_, cs) ← parseLit ':' cs
      let (sec, cs) ← parseNum2 0 61 0 cs
      finishFormat y mo d h mi sec 0 cs
  | .spaceMin => do
      let ((y, mo, d), cs) ← parseDatePart cs
      let (_, cs) ← parseWhite cs
      let ((h, mi), cs) ← parseHourMin cs
      finishFormat y mo d h mi 0 0 cs
  | .tMin => do
      let ((y, mo, d), cs) ← parseDatePart cs
      let (_, cs) ← parseLit 'T' cs
      let ((h, mi), cs) ← parseHourMin cs
      finishFormat y mo d h mi 0 0 cs
  | .dateOnly => do
      let ((y, mo, d), cs) ← parseDatePart cs
      finishFormat y mo d 0 0 0 0 cs

/-- The format list of `utils.parse_datetime`, in its priority order. -/
def timeFormats : List TimeFormat :=
  [.tSec, .tMicro, .spaceSec, .spaceMin, .tMin, .dateOnly]

/-- First successful result of a list of attempts: the `for fmt in formats`
loop that returns on the first `strptime` that does not raise. -/
def firstSome {α : Type} : List (Option α) → Option α
  | [] => none
  | some a :: _ => some a
  | none :: rest => firstSome rest

/-- `utils.parse_datetime`: `None` or `""` yield `None`; otherwise the six
formats are tried in order and the first success is returned; if all fail,
`None`. -/
def parse_datetime (date_str : Option String) : Option DT :=
  match date_str with
  | none => none
  | some s => if s = "" then none else firstSome (timeFormats.map (fun f => strptime f s))

/-! ## Millisecond encoding of datetimes

MongoDB stores a datetime as a count of milliseconds since the Unix epoch;
comparisons, `$gte`/`$lte` matching and `$subtract` on dates all act on
that count.  `daysFromCivil` is the standard civil-from-date algorithm. -/

/-- Days from 1970-01-01 to year `y`, month `m`, day `d` (proleptic
Gregorian). -/
def daysFromCivil (y : Int) (m d : Nat) : Int :=
  let yAdj : Int := if m ≤ 2 then y - 1 else y
  let era : Int := (if 0 ≤ yAdj then yAdj else yAdj - 399) / 400
  let yoe : Int := yAdj - era * 400
  let mp : Int := ((m : Int) + 9) % 12
  let doy : Int := (153 * mp + 2) / 5 + (d : Int) - 1
  let doe : Int := yoe * 365 + yoe / 4 - yoe / 100 + doy
  era * 146097 + doe - 719468

/-- The BSON encoding of a datetime: milliseconds since the epoch
(microseconds are truncated to milliseconds). -/
def DT.toMillis (t : DT) : Int :=
  ((daysFromCivil t.year t.month t.day) * 24 + t.hour) * 3600000 +
    t.minute * 60000 + t.second * 1000 + t.micro / 1000

/-! ## The Filter Builder (`build_query_filters`) -/

/-- First binding of key `k` in an association list (a Python `dict` read:
in a `request.args.to_dict()` keys are unique, and `assocGet` is then the
unique binding). -/
def assocGet {β : Type} (l : List (String × β)) (k : String) : Option β :=
  match l with
  | [] => none
  | (k', v) :: rest => if k' = k then some v else assocGet rest k

/-- One condition of the MongoDB filter dict built by
`build_query_filters`: exact-match equality, or the `$gte`/`$lte`
timestamp range. -/
inductive FVal where
  | eqStr (v : String)
  | range (gte lte : Option DT)
deriving DecidableEq, Repr

/-- `utils.build_query_filters`: starting from an empty dict, add an
exact-match condition for each of `device_id`, `type`, `status`,
`log_type` that is present in the request parameters (a `'key' in
request_args` test), and a `timestamp` range condition when at least one of
`start_time`/`end_time` parses. -/
def build_query_filters (request_args : List (String × String)) :
    List (String × FVal) :=
  let filters : List (String × FVal) := []
  let filters := match assocGet request_args "device_id" with
    | some v => filters ++ [("device_id", FVal.eqStr v)]
    | none => filters
  let filters := match assocGet request_args "type" with
    | some v => filters ++ [("type", FVal.eqStr v)]
    | none => filters
  let filters := match assocGet request_args "status" with
    | some v => filters ++ [("status", FVal.eqStr v)]
    | none => filters
  let filters := match assocGet request_args "log_type" with
    | some v => filters ++ [("log_type", FVal.eqStr v)]
    | none => filters
  let start_time := parse_datetime (assocGet request_args "start_time")
  let end_time := parse_datetime (assocGet request_args "end_time")
  let filters := if start_time.isSome || end_time.isSome then
      filters ++ [("timestamp", FVal.range start_time end_time)]
    else filters
  filters

/-! ## Log documents, ingestion and the statistics pipelines -/

/-- A stored log document, as built by `DeviceLog.create` (the `content`
sub-document is flattened into its `message` and `details` fields; the
per-type `details` payload is an opaque key-value map). -/
structure LogDoc where
  device_id : String
  log_type : String
  timestamp : DT
  message : String
  details : List (String × String)
deriving DecidableEq, Repr

/-- `models.DeviceLog.create`: the stored timestamp is the given one, or
the ingestion instant (`datetime.utcnow()`) when `None` was passed
(`timestamp or datetime.utcnow()`; a `datetime` object is never falsy). -/
def DeviceLog.create (device_id log_type message : String)
    (details : List (String × String)) (timestamp : Option DT) (now : DT) :
    LogDoc :=
  { device_id, log_type, timestamp := timestamp.getD now, message, details }

/-- The JSON body of a `POST /api/logs` request; a field is `none` when the
key is absent from the body. -/
structure CreateLogRequest where
  device_id : Option String
  log_type : Option String
  message : Option String
  details : Option (List (String × String))
  timestamp : Option String
deriving DecidableEq, Repr

/-- Outcome of `create_log`: HTTP 201 with the inserted document, or
HTTP 400 for a missing required field. -/
inductive CreateLogResult where
  | created (log : LogDoc)
  | badRequest (msg : String)
deriving DecidableEq, Repr

/-- `log_routes.create_log`: check required fields, parse the optional
`timestamp` string with `parse_datetime`, build the document with
`DeviceLog.create` and insert it. -/
def create_log (data : CreateLogRequest) (now : DT) : CreateLogResult :=
  match data.device_id with
  | none => .badRequest "缺少必填字段: device_id"
  | some did =>
    match data.log_type with
    | none => .badRequest "缺少必填字段: log_type"
    | some lt =>
      match data.message with
      | none => .badRequest "缺少必填字段: message"
      | some msg =>
        let timestamp := parse_datetime data.timestamp
        .created (DeviceLog.create did lt msg (data.details.getD []) timestamp now)

/-- Query parameters of `GET /api/logs/stats`. -/
structure StatsQuery where
  start_time : Option String
  end_time : Option String
  device_id : Option String
deriving DecidableEq, Repr

/-- The `$match` conditions built at the top of `get_log_stats`: an
inclusive timestamp range from the parsed bounds, and a `device_id`
equality when the parameter is truthy (present and non-empty). -/
structure MatchConds where
  tsGte : Option DT
  tsLte : Option DT
  device_id : Option String
deriving DecidableEq, Repr

/-- `get_log_stats` lines 183–200: parse the time bounds and read the
truthiness-tested `device_id`. -/
def buildMatchConds (q : StatsQuery) : MatchConds :=
  { tsGte := parse_datetime q.start_time,
    tsLte := parse_datetime q.end_time,
    device_id := match q.device_id with
      | none => none
      | some d => if d = "" then none else some d }

/-- Evaluation of the `$match` stage on one document (date comparisons act
on the millisecond encoding). -/
def logMatches (c : MatchConds) (l : LogDoc) : Bool :=
  (match c.tsGte with
    | none => true
    | some s => decide (s.toMillis ≤ l.timestamp.toMillis)) &&
  (match c.tsLte with
    | none => true
    | some e => decide (l.timestamp.toMillis ≤ e.toMillis)) &&
  (match c.device_id with
    | none => true
    | some d => decide (l.device_id = d))

/-- Distinct values in first-occurrence order, skipping values already in
`seen`. -/
def dedupAux {α : Type} [DecidableEq α] (seen : List α) : List α → List α
  | [] => []
  | x :: xs => if x ∈ seen then dedupAux seen xs else x :: dedupAux (x :: seen) xs

/-- Distinct values in first-occurrence order: the set of group keys a
`$group` stage produces (one output document per distinct key). -/
def dedupKeys {α : Type} [DecidableEq α] (l : List α) : List α :=
  dedupAux [] l

/-- The group keys of a `$group` stage keyed by `g` over the matched
documents. -/
def groupKeys {κ : Type} [DecidableEq κ] (g : LogDoc → κ) (m : List LogDoc) :
    List κ :=
  dedupKeys (m.map g)

/-- `$min` accumulator over the millisecond timestamps of a group. -/
def minList (xs : List Int) : Int :=
  match xs with
  | [] => 0
  | x :: rest => rest.foldl min x

/-- `$max` accumulator over the millisecond timestamps of a group. -/
def maxList (xs : List Int) : Int :=
  match xs with
  | [] => 0
  | x :: rest => rest.foldl max x

/-- One output row of the per-device frequency pipeline of
`get_log_stats` (aggregation 4). -/
structure FreqRow where
  device_id : String
  count : Nat
  duration_hours : ℚ
  frequency : ℚ
deriving DecidableEq, Repr

/-- The `$group` + `$project` stages of the frequency pipeline for one
device: `first_log`/`last_log` are the `$min`/`$max` timestamps,
`duration_hours = (last_log - first_log) / 3600000`, and
`frequency = count / duration_hours` when `last_log - first_log > 0`,
else `0` (the `$cond`). -/
def mkFreqRow (m : List LogDoc) (d : String) : FreqRow :=
  let ts := (m.filter (fun l => decide (l.device_id = d))).map
    (fun l => l.timestamp.toMillis)
  let diff : Int := maxList ts - minList ts
  { device_id := d,
    count := ts.length,
    duration_hours := (diff : ℚ) / 3600000,
    frequency := if 0 < diff then (ts.length : ℚ) / ((diff : ℚ) / 3600000) else 0 }

/-- All rows of the frequency pipeline before `$sort`/`$limit` (one per
distinct `device_id` among the matched logs). -/
def freqRows (m : List LogDoc) : List FreqRow :=
  (groupKeys (fun l => l.device_id) m).map (mkFreqRow m)

/-- The sort relation of `{'$sort': {'frequency': -1}}`. -/
def freqGe (a b : FreqRow) : Prop := b.frequency ≤ a.frequency

instance : DecidableRel freqGe := fun a b =>
  inferInstanceAs (Decidable (b.frequency ≤ a.frequency))

instance : IsTotal FreqRow freqGe :=
  ⟨fun a b => le_total b.frequency a.frequency⟩

instance : IsTrans FreqRow freqGe :=
  ⟨fun _ _ _ h1 h2 => le_trans h2 h1⟩

/-- Aggregation 4 of `get_log_stats`: `$match`, `$group` by `device_id`
with `$min`/`$max`/`$sum`, `$project` of `duration_hours` and `frequency`,
`$sort` by `frequency` descending, `$limit: 10`. -/
def device_frequency (logs : List LogDoc) (c : MatchConds) : List FreqRow :=
  (List.insertionSort freqGe (freqRows (logs.filter (logMatches c)))).take 10

/-- One output bucket of the hourly pipeline of `get_log_stats`
(aggregation 3): the `_id` sub-document `{year, month, day, hour}` and the
`$sum: 1` count. -/
structure HourBucket where
  year : Nat
  month : Nat
  day : Nat
  hour : Nat
  count : Nat
deriving DecidableEq, Repr

/-- The `$group` key of the hourly pipeline: `$year`, `$month`,
`$dayOfMonth`, `$hour` of `timestamp` (the UTC calendar components of the
stored datetime). -/
def hourKey (l : LogDoc) : Nat × Nat × Nat × Nat :=
  (l.timestamp.year, l.timestamp.month, l.timestamp.day, l.timestamp.hour)

/-- The bucket of one group key. -/
def mkHourBucket (m : List LogDoc) (k : Nat × Nat × Nat × Nat) : HourBucket :=
  { year := k.1, month := k.2.1, day := k.2.2.1, hour := k.2.2.2,
    count := (m.filter (fun l => decide (hourKey l = k))).length }

/-- All buckets of the hourly pipeline before `$sort`/`$limit`. -/
def hourRows (m : List LogDoc) : List HourBucket :=
  (groupKeys hourKey m).map (mkHourBucket m)

/-- The sort relation of `{'$sort': {'_id': 1}}`: BSON compares the `_id`
sub-documents field by field, i.e. lexicographically on
(year, month, day, hour). -/
def bucketLe (a b : HourBucket) : Prop :=
  a.year < b.year ∨ (a.year = b.year ∧ (a.month < b.month ∨ (a.month = b.month ∧
    (a.day < b.day ∨ (a.day = b.day ∧ a.hour ≤ b.hour)))))

instance : DecidableRel bucketLe := fun a b => by
  unfold bucketLe; infer_instance

instance : IsTotal HourBucket bucketLe :=
  ⟨by intro a b; unfold bucketLe; omega⟩

instance : IsTrans HourBucket bucketLe :=
  ⟨by intro a b c; unfold bucketLe; omega⟩

/-- Aggregation 3 of `get_log_stats`: `$match`, `$group` by
(year, month, day, hour) with `$sum: 1`, `$sort` ascending by the bucket
key, `$limit: 24`. -/
def hourly_stats (logs : List LogDoc) (c : MatchConds) : List HourBucket :=
  (List.insertionSort bucketLe (hourRows (logs.filter (logMatches c)))).take 24

/-! ## Relevance search (`search_logs`) -/

/-- The success payload of `GET /api/logs/search`. -/
structure SearchOk where
  data : List LogDoc
  page : Nat
  per_page : Nat
  total : Nat
deriving DecidableEq, Repr

/-- Outcome of `search_logs`: HTTP 200 with data and pagination metadata,
or HTTP 400. -/
inductive SearchResult where
  | ok (r : SearchOk)
  | badRequest (msg : String)
deriving DecidableEq, Repr

/-- `log_routes.search_logs` over an abstract store answer: `matching` is
the full relevance-ordered sequence of documents matching the `$text`
query (store contract, spec §6).  The handler rejects an empty keyword,
pages with `skip = (page - 1) * per_page` and `limit = per_page`, and
reports `total = len(logs)` — the size of the returned page, not of
`matching`. -/
def search_logs (keyword : String) (page per_page : Nat)
    (matching : List LogDoc) : SearchResult :=
  if keyword = "" then .badRequest "缺少搜索关键词"
  else
    let skip := (page - 1) * per_page
    let logs := (matching.drop skip).take per_page
    .ok { data := logs, page, per_page, total := logs.length }

/-! ## Devices: creation, uniqueness, geospatial query -/

/-- A `location` value of a device-creation request body. -/
structure Location where
  longitude : ℚ
  latitude : ℚ
deriving DecidableEq, Repr

/-- `utils.validate_location` on a well-typed location dict: the coordinate
range checks (the dict-shape and float-conversion checks of the Python
function are absorbed by the type). -/
def validate_location (loc : Location) : Bool :=
  decide (-180 ≤ loc.longitude) && decide (loc.longitude ≤ 180) &&
    decide (-90 ≤ loc.latitude) && decide (loc.latitude ≤ 90)

/-- A stored GeoJSON point. -/
structure GeoPoint where
  type : String
  coordinates : ℚ × ℚ
deriving DecidableEq, Repr

/-- A stored device document, as built by `Device.create`. -/
structure DeviceDoc where
  device_id : String
  name : String
  type : String
  location : GeoPoint
  status : String
  config : List (String × String)
  created_at : DT
  updated_at : DT
deriving DecidableEq, Repr

/-- `models.Device.create`: GeoJSON location `[longitude, latitude]`,
`created_at`/`updated_at` set to the creation instant. -/
def Device.create (device_id name device_type : String) (location : Location)
    (status : String) (config : List (String × String)) (now : DT) :
    DeviceDoc :=
  { device_id, name, type := device_type,
    location := { type := "Point",
                  coordinates := (location.longitude, location.latitude) },
    status, config, created_at := now, updated_at := now }

/-- The JSON body of a `POST /api/devices` request. -/
structure CreateDeviceRequest where
  device_id : Option String
  name : Option String
  type : Option String
  location : Option Location
  status : Option String
  config : Option (List (String × String))
deriving DecidableEq, Repr

/-- HTTP outcome of `create_device`: 201, 400 (validation or duplicate
key), or 500 (the generic `except Exception` internal fault). -/
inductive HttpReply where
  | created (msg : String)
  | badRequest (msg : String)
  | serverError (msg : String)
deriving DecidableEq, Repr

/-- The HTTP status code of a reply. -/
def HttpReply.status : HttpReply → Nat
  | .created _ => 201
  | .badRequest _ => 400
  | .serverError _ => 500

/-- `insert_one` on the `devices` collection, which carries a unique index
on `device_id` (store capability, spec §6): inserting a duplicate raises
`DuplicateKeyError` (`none`) and leaves the collection unchanged. -/
def devicesInsertOne (store : List DeviceDoc) (d : DeviceDoc) :
    Option (List DeviceDoc) :=
  if store.any (fun x => decide (x.device_id = d.device_id)) then none
  else some (store ++ [d])

/-- `device_routes.create_device`: required-field checks in source order,
`validate_location`, `Device.create` (status defaulting to `'online'`,
config to `{}`), then `insert_one`; `DuplicateKeyError` is caught and
answered with HTTP 400 `'设备ID已存在'`. -/
def create_device (store : List DeviceDoc) (data : CreateDeviceRequest)
    (now : DT) : HttpReply × List DeviceDoc :=
  match data.device_id with
  | none => (.badRequest "缺少必填字段: device_id", store)
  | some did =>
    match data.name with
    | none => (.badRequest "缺少必填字段: name", store)
    | some nm =>
      match data.type with
      | none => (.badRequest "缺少必填字段: type", store)
      | some ty =>
        match data.location with
        | none => (.badRequest "缺少必填字段: location", store)
        | some loc =>
          if validate_location loc = false then
            (.badRequest "地理位置数据格式错误", store)
          else
            let device := Device.create did nm ty loc (data.status.getD "online")
              (data.config.getD []) now
            match devicesInsertOne store device with
            | none => (.badRequest "设备ID已存在", store)
            | some store' => (.created "设备创建成功", store')

/-- The `$near` query document built by `get_nearby_devices`. -/
structure GeoNearQuery where
  center : ℚ × ℚ
  maxDistance : ℚ
  status : Option String
  limit : Nat
deriving DecidableEq, Repr

/-- Outcome of `get_nearby_devices` up to the store call: the proximity
query it would execute, or HTTP 400. -/
inductive NearbyResult where
  | ok (q : GeoNearQuery)
  | badRequest (msg : String)
deriving DecidableEq, Repr

/-- Core of `get_nearby_devices` after numeric conversion: the inline
coordinate range check, then the `$near` query with the optional `status`
conjunct and the result limit. -/
def nearbyQueryOf (longitude latitude max_distance : ℚ) (limit : Nat)
    (status : Option String) : NearbyResult :=
  if ¬(-180 ≤ longitude ∧ longitude ≤ 180) ∨ ¬(-90 ≤ latitude ∧ latitude ≤ 90) then
    .badRequest "经纬度范围错误"
  else
    .ok { center := (longitude, latitude), maxDistance := max_distance,
          status, limit }

/-- `device_routes.get_nearby_devices` parameter handling: a missing
`longitude` or `latitude` defaults to `0`, `max_distance` to `1000`,
`limit` to `10` (`request.args.get(..., default)`), then the range check
runs on the resulting numbers. -/
def get_nearby_devices (longitude latitude max_distance : Option ℚ)
    (limit : Option Nat) (status : Option String) : NearbyResult :=
  nearbyQueryOf (longitude.getD 0) (latitude.getD 0) (max_distance.getD 1000)
    (limit.getD 10) status

/-! ## General lemmas -/

theorem firstSome_isSome {α : Type} (l : List (Option α)) :
    (firstSome l).isSome ↔ ∃ o ∈ l, o.isSome := by
  induction l with
  | nil => simp [firstSome]
  | cons x rest ih =>
    cases x with
    | some a => simp [firstSome]
    | none => simp [firstSome, ih]

theorem firstSome_append {α : Type} (l1 l2 : List (Option α)) (a : α)
    (h : ∀ o ∈ l1, o = none) : firstSome (l1 ++ some a :: l2) = some a := by
  induction l1 with
  | nil => simp [firstSome]
  | cons x rest ih =>
    have hx : x = none := h x (by simp)
    subst hx
    simpa only [List.cons_append, firstSome] using
      ih (fun o ho => h o (by simp [ho]))

theorem strptime_empty (f : TimeFormat) : strptime f "" = none := by
  cases f <;> rfl

theorem mem_dedupAux {α : Type} [DecidableEq α] (a : α) :
    ∀ (l seen : List α), a ∈ dedupAux seen l ↔ a ∈ l ∧ a ∉ seen := by
  intro l
  induction l with
  | nil => simp [dedupAux]
  | cons x xs ih =>
    intro seen
    by_cases hx : x ∈ seen
    · rw [dedupAux, if_pos hx, ih]
      by_cases hax : a = x
      · subst hax; simp [hx]
      · simp [hax]
    · rw [dedupAux, if_neg hx]
      by_cases hax : a = x
      · subst hax; simp [hx]
      · simp [List.mem_cons, hax, ih, not_or]

theorem mem_dedupKeys {α : Type} [DecidableEq α] (a : α) (l : List α) :
    a ∈ dedupKeys l ↔ a ∈ l := by
  simp [dedupKeys, mem_dedupAux]

/-! ## Claims -/

/-- C4: the Response Normalizer `objectid_to_str` is idempotent (applying
it twice yields the result of applying it once, for every nested input
built from dicts, lists, ObjectIds and other scalars); it replaces every
ObjectId reachable through dicts and lists by its string representation
(no ObjectId remains anywhere in its output) and leaves all other values
unchanged (scalars are returned as given; dicts and lists keep their keys
and shape, the transformation acting entrywise). -/
theorem c4_objectid_to_str_idempotent :
    (∀ v : Val, objectid_to_str (objectid_to_str v) = objectid_to_str v) ∧
    (∀ s, objectid_to_str (Val.oid s) = Val.str s) ∧
    (∀ s, objectid_to_str (Val.str s) = Val.str s) ∧
    (∀ n, objectid_to_str (Val.intV n) = Val.intV n) ∧
    (∀ b, objectid_to_str (Val.boolV b) = Val.boolV b) ∧
    (∀ kvs, objectid_to_str (Val.dict kvs)
        = Val.dict (objectid_to_str_pairs kvs)) ∧
    (∀ xs, objectid_to_str (Val.arr xs) = Val.arr (objectid_to_str_elems xs)) ∧
    (∀ k v kvs, objectid_to_str_pairs ((k, v) :: kvs)
        = (k, objectid_to_str v) :: objectid_to_str_pairs kvs) ∧
    (∀ v xs, objectid_to_str_elems (v :: xs)
        = objectid_to_str v :: objectid_to_str_elems xs) ∧
    (∀ v : Val, Val.hasOid (objectid_to_str v) = false) :=
  ⟨objectid_to_str_idem_aux, fun _ => rfl, fun _ => rfl, fun _ => rfl,
    fun _ => rfl, fun _ => rfl, fun _ => rfl, fun _ _ _ => rfl,
    fun _ _ => rfl, objectid_to_str_no_oid_aux⟩

/-- C5: the Temporal Parser `parse_datetime` maps `None` and `""` to no
value; for any other string it accepts exactly the strings matched by one
of the six format shapes `%Y-%m-%dT%H:%M:%S`, `%Y-%m-%dT%H:%M:%S.%f`,
`%Y-%m-%d %H:%M:%S`, `%Y-%m-%d %H:%M`, `%Y-%m-%dT%H:%M`, `%Y-%m-%d`,
tried in that priority order with the first format that parses winning,
and returns no value (rather than raising) when no format matches;
concretely, `"2024-01-01T12:00:00"` and `"2024-01-01 12:00"` parse to the
expected instants and `"not-a-date"` yields no value. -/
theorem c5_parse_datetime_formats :
    parse_datetime none = none ∧
    parse_datetime (some "") = none ∧
    (∀ s : String, (parse_datetime (some s)).isSome ↔
        ∃ f ∈ timeFormats, (strptime f s).isSome) ∧
    (∀ (s : String) (pre post : List TimeFormat) (f : TimeFormat),
        timeFormats = pre ++ f :: post →
        (∀ g ∈ pre, strptime g s = none) →
        (strptime f s).isSome →
        parse_datetime (some s) = strptime f s) ∧
    parse_datetime (some "2024-01-01T12:00:00")
      = some ⟨2024, 1, 1, 12, 0, 0, 0⟩ ∧
    parse_datetime (some "2024-01-01 12:00") = some ⟨2024, 1, 1, 12, 0, 0, 0⟩ ∧
    parse_datetime (some "not-a-date") = none := by
  refine ⟨rfl, rfl, ?_, ?_, by decide, by decide, by decide⟩
  · intro s
    by_cases hs : s = ""
    · subst hs
      simp [parse_datetime, strptime_empty]
    · simp [parse_datetime, hs, firstSome_isSome]
  · intro s pre post f heq hpre hsome
    by_cases hs : s = ""
    · subst hs
      rw [strptime_empty] at hsome
      exact absurd hsome (by simp)
    · obtain ⟨a, ha⟩ := Option.isSome_iff_exists.mp hsome
      rw [parse_datetime, if_neg hs, heq, List.map_append, List.map_cons, ha]
      rw [firstSome_append _ _ a]
      intro o ho
      obtain ⟨g, hg, rfl⟩ := List.mem_map.mp ho
      exact hpre g hg

/-- Closed instance of C5: the date-only format is reached after the five
formats before it all fail on `"2024-01-01"`. -/
theorem c5_parse_datetime_formats_witness :
    parse_datetime (some "2024-01-01") = strptime TimeFormat.dateOnly "2024-01-01" :=
  c5_parse_datetime_formats.2.2.2.1 "2024-01-01"
    [TimeFormat.tSec, TimeFormat.tMicro, TimeFormat.spaceSec,
      TimeFormat.spaceMin, TimeFormat.tMin]
    [] TimeFormat.dateOnly rfl (by decide) (by decide)

/-- C1 (counterexample): a request in which `device_id` is present with the
empty-string value.  The claim says this produces no condition for the
field; `build_query_filters` nevertheless emits the exact-match condition
`device_id = ""`. -/
theorem c1_empty_param_counterexample :
    assocGet (build_query_filters [("device_id", "")]) "device_id"
        = some (FVal.eqStr "") ∧
    ¬ assocGet (build_query_filters [("device_id", "")]) "device_id" = none := by
  constructor <;> decide

/-- C1 (amended): `build_query_filters` includes an exact-match equality
condition for each of `device_id`, `type`, `status` and `log_type` exactly
when that parameter is present — regardless of whether its value is empty —
with the condition carrying the parameter's value verbatim; the
`timestamp` range condition is included exactly when at least one of
`start_time`/`end_time` parses. -/
theorem c1_build_query_filters_amended (args : List (String × String)) :
    assocGet (build_query_filters args) "device_id"
        = (assocGet args "device_id").map FVal.eqStr ∧
    assocGet (build_query_filters args) "type"
        = (assocGet args "type").map FVal.eqStr ∧
    assocGet (build_query_filters args) "status"
        = (assocGet args "status").map FVal.eqStr ∧
    assocGet (build_query_filters args) "log_type"
        = (assocGet args "log_type").map FVal.eqStr ∧
    assocGet (build_query_filters args) "timestamp"
        = (if (parse_datetime (assocGet args "start_time")).isSome
              || (parse_datetime (assocGet args "end_time")).isSome
           then some (FVal.range (parse_datetime (assocGet args "start_time"))
                        (parse_datetime (assocGet args "end_time")))
           else none) := by
  unfold build_query_filters
  cases assocGet args "device_id" <;>
    cases assocGet args "type" <;>
      cases assocGet args "status" <;>
        cases assocGet args "log_type" <;>
          cases hb : (parse_datetime (assocGet args "start_time")).isSome
              || (parse_datetime (assocGet args "end_time")).isSome <;>
            simp [hb, assocGet]

/-- C3: the nearby-device handler, given numeric coordinates, accepts
every pair with `longitude ∈ [-180, 180]` and `latitude ∈ [-90, 90]` and
proceeds to build the `$near` proximity query; any coordinate outside
either range is answered with the HTTP 400 validation error instead.  The
same bounds characterise `utils.validate_location`. -/
theorem c3_nearby_coordinate_validation :
    (∀ (longitude latitude max_distance : ℚ) (limit : Nat)
        (status : Option String),
      (-180 ≤ longitude ∧ longitude ≤ 180 ∧ -90 ≤ latitude ∧ latitude ≤ 90 →
        get_nearby_devices (some longitude) (some latitude) (some max_distance)
            (some limit) status
          = NearbyResult.ok ⟨(longitude, latitude), max_distance, status, limit⟩) ∧
      (longitude < -180 ∨ 180 < longitude ∨ latitude < -90 ∨ 90 < latitude →
        get_nearby_devices (some longitude) (some latitude) (some max_distance)
            (some limit) status
          = NearbyResult.badRequest "经纬度范围错误")) ∧
    (∀ loc : Location, validate_location loc = true ↔
      -180 ≤ loc.longitude ∧ loc.longitude ≤ 180 ∧
        -90 ≤ loc.latitude ∧ loc.latitude ≤ 90) := by
  constructor
  · intro longitude latitude max_distance limit status
    have hval : get_nearby_devices (some longitude) (some latitude)
        (some max_distance) (some limit) status
        = nearbyQueryOf longitude latitude max_distance limit status := rfl
    constructor
    · intro h
      have hc : ¬(¬((-180 : ℚ) ≤ longitude ∧ longitude ≤ 180) ∨
          ¬((-90 : ℚ) ≤ latitude ∧ latitude ≤ 90)) := by
        push_neg
        exact ⟨⟨h.1, h.2.1⟩, h.2.2.1, h.2.2.2⟩
      rw [hval, nearbyQueryOf, if_neg hc]
    · intro h
      have hc : ¬((-180 : ℚ) ≤ longitude ∧ longitude ≤ 180) ∨
          ¬((-90 : ℚ) ≤ latitude ∧ latitude ≤ 90) := by
        rcases h with h | h | h | h
        · exact Or.inl (fun hc => absurd hc.1 (not_le.mpr h))
        · exact Or.inl (fun hc => absurd hc.2 (not_le.mpr h))
        · exact Or.inr (fun hc => absurd hc.1 (not_le.mpr h))
        · exact Or.inr (fun hc => absurd hc.2 (not_le.mpr h))
      rw [hval, nearbyQueryOf, if_pos hc]
  · intro loc
    simp [validate_location, and_assoc]

/-- Closed instance of C3: the end-to-end coordinates of the spec's
example are accepted, and an out-of-range longitude is rejected. -/
theorem c3_nearby_coordinate_validation_witness :
    get_nearby_devices (some 113.2644) (some 23.1291) (some 2000) (some 10) none
        = NearbyResult.ok ⟨(113.2644, 23.1291), 2000, none, 10⟩ ∧
    get_nearby_devices (some 200) (some 23.1291) (some 1000) (some 10) none
        = NearbyResult.badRequest "经纬度范围错误" :=
  ⟨(c3_nearby_coordinate_validation.1 113.2644 23.1291 2000 10 none).1
      (by norm_num),
    (c3_nearby_coordinate_validation.1 200 23.1291 1000 10 none).2
      (by norm_num)⟩

/-- C9: when the `longitude` or `latitude` parameter is absent, the nearby
handler substitutes the default `0`, which passes the range check, so the
proximity query is built centered at the defaulted coordinate and no
HTTP 400 is produced on account of the missing parameter. -/
theorem c9_nearby_missing_coordinate_defaults :
    (∀ (max_distance : Option ℚ) (limit : Option Nat) (status : Option String),
      get_nearby_devices none none max_distance limit status
        = NearbyResult.ok ⟨(0, 0), max_distance.getD 1000, status, limit.getD 10⟩) ∧
    (∀ latitude : ℚ, -90 ≤ latitude → latitude ≤ 90 →
      ∀ (max_distance : Option ℚ) (limit : Option Nat) (status : Option String),
      get_nearby_devices none (some latitude) max_distance limit status
        = NearbyResult.ok ⟨(0, latitude), max_distance.getD 1000, status, limit.getD 10⟩) ∧
    (∀ longitude : ℚ, -180 ≤ longitude → longitude ≤ 180 →
      ∀ (max_distance : Option ℚ) (limit : Option Nat) (status : Option String),
      get_nearby_devices (some longitude) none max_distance limit status
        = NearbyResult.ok ⟨(longitude, 0), max_distance.getD 1000, status, limit.getD 10⟩) := by
  refine ⟨?_, ?_, ?_⟩
  · intro max_distance limit status
    have hval : get_nearby_devices none none max_distance limit status
        = nearbyQueryOf 0 0 (max_distance.getD 1000) (limit.getD 10) status := rfl
    have hc : ¬(¬((-180 : ℚ) ≤ 0 ∧ (0 : ℚ) ≤ 180) ∨
        ¬((-90 : ℚ) ≤ 0 ∧ (0 : ℚ) ≤ 90)) := by
      push_neg
      norm_num
    rw [hval, nearbyQueryOf, if_neg hc]
  · intro latitude h1 h2 max_distance limit status
    have hval : get_nearby_devices none (some latitude) max_distance limit status
        = nearbyQueryOf 0 latitude (max_distance.getD 1000) (limit.getD 10)
            status := rfl
    have hc : ¬(¬((-180 : ℚ) ≤ 0 ∧ (0 : ℚ) ≤ 180) ∨
        ¬((-90 : ℚ) ≤ latitude ∧ latitude ≤ 90)) := by
      push_neg
      exact ⟨by norm_num, h1, h2⟩
    rw [hval, nearbyQueryOf, if_neg hc]
  · intro longitude h1 h2 max_distance limit status
    have hval : get_nearby_devices (some longitude) none max_distance limit status
        = nearbyQueryOf longitude 0 (max_distance.getD 1000) (limit.getD 10)
            status := rfl
    have hc : ¬(¬((-180 : ℚ) ≤ longitude ∧ longitude ≤ 180) ∨
        ¬((-90 : ℚ) ≤ 0 ∧ (0 : ℚ) ≤ 90)) := by
      push_neg
      exact ⟨⟨h1, h2⟩, by norm_num⟩
    rw [hval, nearbyQueryOf, if_neg hc]

/-- Closed instance of C9: both coordinates missing yields the proximity
query centered at (0, 0) with the default distance and limit. -/
theorem c9_nearby_missing_coordinate_defaults_witness :
    get_nearby_devices none (some 23.1291) none none none
        = NearbyResult.ok ⟨(0, 23.1291), 1000, none, 10⟩ :=
  c9_nearby_missing_coordinate_defaults.2.1 23.1291 (by norm_num) (by norm_num)
    none none none

/-- C7: for every text search with a non-empty keyword, the reported
`total` equals the number of documents on the returned page (hence never
exceeds `per_page`, and when the store has more than a page of matches it
undercounts the true total); an empty keyword is answered with HTTP 400. -/
theorem c7_search_total_is_page_size :
    (∀ (keyword : String) (page per_page : Nat) (matching : List LogDoc),
      keyword ≠ "" → 1 ≤ page →
      ∃ r : SearchOk,
        search_logs keyword page per_page matching = SearchResult.ok r ∧
        r.data = (matching.drop ((page - 1) * per_page)).take per_page ∧
        r.total = r.data.length ∧
        r.total ≤ per_page) ∧
    (∀ (keyword : String) (per_page : Nat) (matching : List LogDoc),
      keyword ≠ "" → per_page ≤ matching.length →
      ∃ r : SearchOk,
        search_logs keyword 1 per_page matching = SearchResult.ok r ∧
        r.total = per_page) ∧
    (∀ (page per_page : Nat) (matching : List LogDoc),
      search_logs "" page per_page matching
        = SearchResult.badRequest "缺少搜索关键词") := by
  refine ⟨?_, ?_, ?_⟩
  · intro keyword page per_page matching hk hpage
    refine ⟨⟨(matching.drop ((page - 1) * per_page)).take per_page, page,
        per_page,
        ((matching.drop ((page - 1) * per_page)).take per_page).length⟩,
      ?_, rfl, rfl, ?_⟩
    · rw [search_logs, if_neg hk]
    · exact List.length_take_le _ _
  · intro keyword per_page matching hk hlen
    refine ⟨⟨(matching.drop ((1 - 1) * per_page)).take per_page, 1, per_page,
        ((matching.drop ((1 - 1) * per_page)).take per_page).length⟩, ?_, ?_⟩
    · rw [search_logs, if_neg hk]
    · show ((matching.drop ((1 - 1) * per_page)).take per_page).length = per_page
      simp [Nat.min_eq_left hlen]
  · intro page per_page matching
    rw [search_logs, if_pos rfl]

/-- Closed instance of C7: three matching documents, page size two — the
reported total is 2, the page size, not 3. -/
theorem c7_search_total_is_page_size_witness :
    ∃ r : SearchOk,
      search_logs "错误" 1 2
          [⟨"DEV0001", "error", ⟨2024, 1, 1, 1, 0, 0, 0⟩, "m1", []⟩,
           ⟨"DEV0002", "error", ⟨2024, 1, 1, 2, 0, 0, 0⟩, "m2", []⟩,
           ⟨"DEV0003", "error", ⟨2024, 1, 1, 3, 0, 0, 0⟩, "m3", []⟩]
        = SearchResult.ok r ∧
      r.total = 2 :=
  c7_search_total_is_page_size.2.1 "错误" 2
    [⟨"DEV0001", "error", ⟨2024, 1, 1, 1, 0, 0, 0⟩, "m1", []⟩,
     ⟨"DEV0002", "error", ⟨2024, 1, 1, 2, 0, 0, 0⟩, "m2", []⟩,
     ⟨"DEV0003", "error", ⟨2024, 1, 1, 3, 0, 0, 0⟩, "m3", []⟩]
    (by decide) (by decide)

/-- C8: creating a device whose `device_id` already identifies a stored
device is answered with HTTP 400 and the dedicated duplicate-identifier
message, an outcome distinct from every generic internal-fault (HTTP 500)
reply, and the device collection is left unchanged (no second device with
that identifier is inserted). -/
theorem c8_duplicate_device_id_conflict :
    ∀ (store : List DeviceDoc) (data : CreateDeviceRequest) (now : DT)
      (did nm ty : String) (loc : Location),
      data.device_id = some did →
      data.name = some nm →
      data.type = some ty →
      data.location = some loc →
      validate_location loc = true →
      (∃ d ∈ store, d.device_id = did) →
      create_device store data now = (HttpReply.badRequest "设备ID已存在", store) ∧
      (create_device store data now).1.status = 400 ∧
      (create_device store data now).2 = store ∧
      (∀ msg, (create_device store data now).1 ≠ HttpReply.serverError msg) ∧
      (∀ msg, (create_device store data now).1.status ≠ (HttpReply.serverError msg).status) := by
  intro store data now did nm ty loc hdid hnm hty hloc hval hdup
  have hany : (store.any (fun x => decide (x.device_id = did))) = true := by
    rw [List.any_eq_true]
    obtain ⟨d, hd, hdd⟩ := hdup
    exact ⟨d, hd, by simp [hdd]⟩
  have hmain : create_device store data now
      = (HttpReply.badRequest "设备ID已存在", store) := by
    simp only [create_device, hdid, hnm, hty, hloc]
    rw [if_neg (by rw [hval]; decide)]
    simp only [Device.create, devicesInsertOne]
    rw [if_pos hany]
  refine ⟨hmain, ?_, ?_, ?_, ?_⟩
  · rw [hmain]
    rfl
  · rw [hmain]
  · rw [hmain]
    intro msg h
    exact HttpReply.noConfusion h
  · rw [hmain]
    intro msg
    show (400 : Nat) ≠ 500
    decide

/-- Closed instance of C8: inserting `DEV0001` into a store that already
holds a device with that identifier. -/
theorem c8_duplicate_device_id_conflict_witness :
    create_device
        [Device.create "DEV0001" "客厅智能灯" "智能灯" ⟨113, 23⟩
          "online" [] ⟨2024, 1, 1, 0, 0, 0, 0⟩]
        ⟨some "DEV0001", some "卧室智能灯", some "智能灯",
          some ⟨114, 24⟩, none, none⟩
        ⟨2024, 1, 2, 0, 0, 0, 0⟩
      = (HttpReply.badRequest "设备ID已存在",
          [Device.create "DEV0001" "客厅智能灯" "智能灯" ⟨113, 23⟩
            "online" [] ⟨2024, 1, 1, 0, 0, 0, 0⟩]) :=
  (c8_duplicate_device_id_conflict
    [Device.create "DEV0001" "客厅智能灯" "智能灯" ⟨113, 23⟩
      "online" [] ⟨2024, 1, 1, 0, 0, 0, 0⟩]
    ⟨some "DEV0001", some "卧室智能灯", some "智能灯", some ⟨114, 24⟩,
      none, none⟩
    ⟨2024, 1, 2, 0, 0, 0, 0⟩ "DEV0001" "卧室智能灯" "智能灯" ⟨114, 24⟩
    rfl rfl rfl rfl (by decide)
    ⟨Device.create "DEV0001" "客厅智能灯" "智能灯" ⟨113, 23⟩
      "online" [] ⟨2024, 1, 1, 0, 0, 0, 0⟩, List.mem_singleton.mpr rfl, rfl⟩).1

/-- C10: a log-creation request whose `timestamp` is a string that parses
under none of the six formats still succeeds, and the stored document is
identical to the one stored when the `timestamp` field is omitted: its
timestamp is the ingestion instant, and no error is reported for the
unparseable value. -/
theorem c10_unparseable_timestamp_ingestion_time :
    ∀ (did lt msg s : String) (details : Option (List (String × String)))
      (now : DT),
      parse_datetime (some s) = none →
      create_log ⟨some did, some lt, some msg, details, some s⟩ now
          = create_log ⟨some did, some lt, some msg, details, none⟩ now ∧
      create_log ⟨some did, some lt, some msg, details, some s⟩ now
          = CreateLogResult.created
              ⟨did, lt, now, msg, details.getD []⟩ := by
  intro did lt msg s details now hs
  constructor
  · show CreateLogResult.created
        (DeviceLog.create did lt msg (details.getD []) (parse_datetime (some s)) now)
      = CreateLogResult.created
        (DeviceLog.create did lt msg (details.getD []) (parse_datetime none) now)
    rw [hs, parse_datetime]
  · show CreateLogResult.created
        (DeviceLog.create did lt msg (details.getD []) (parse_datetime (some s)) now)
      = _
    rw [hs, DeviceLog.create]
    rfl

/-- Closed instance of C10: an unparseable timestamp string stores the
ingestion instant, exactly as an absent timestamp does. -/
theorem c10_unparseable_timestamp_ingestion_time_witness :
    create_log ⟨some "DEV0001", some "info", some "设备正常运行", none,
        some "not-a-date"⟩ ⟨2024, 1, 1, 12, 0, 0, 0⟩
      = create_log ⟨some "DEV0001", some "info", some "设备正常运行", none,
          none⟩ ⟨2024, 1, 1, 12, 0, 0, 0⟩ :=
  (c10_unparseable_timestamp_ingestion_time "DEV0001" "info" "设备正常运行"
    "not-a-date" none ⟨2024, 1, 1, 12, 0, 0, 0⟩ (by decide)).1

/-! ## Lemmas on the aggregation pipelines -/

theorem mkFreqRow_device_id (m : List LogDoc) (d : String) :
    (mkFreqRow m d).device_id = d := rfl

theorem mkFreqRow_count (m : List LogDoc) (d : String) :
    (mkFreqRow m d).count
      = (m.filter (fun l => decide (l.device_id = d))).length := by
  simp [mkFreqRow]

theorem freqRows_coverage (m : List LogDoc) (d : String) :
    (∃ r ∈ freqRows m, r.device_id = d) ↔ ∃ l ∈ m, l.device_id = d := by
  constructor
  · rintro ⟨r, hr, hid⟩
    rw [freqRows, groupKeys] at hr
    obtain ⟨k, hk, rfl⟩ := List.mem_map.mp hr
    rw [mkFreqRow_device_id] at hid
    subst hid
    obtain ⟨l, hl, hlk⟩ := List.mem_map.mp ((mem_dedupKeys _ _).mp hk)
    exact ⟨l, hl, hlk⟩
  · rintro ⟨l, hl, rfl⟩
    refine ⟨mkFreqRow m l.device_id, ?_, rfl⟩
    rw [freqRows, groupKeys]
    exact List.mem_map.mpr ⟨l.device_id,
      (mem_dedupKeys _ _).mpr (List.mem_map.mpr ⟨l, hl, rfl⟩), rfl⟩

theorem freqRows_eq_mkFreqRow (m : List LogDoc) (r : FreqRow)
    (h : r ∈ freqRows m) : r = mkFreqRow m r.device_id := by
  rw [freqRows, groupKeys] at h
  obtain ⟨k, hk, rfl⟩ := List.mem_map.mp h
  rfl

theorem mkFreqRow_single (m : List LogDoc) (d : String)
    (h : (mkFreqRow m d).count = 1) : (mkFreqRow m d).frequency = 0 := by
  have hts : ((m.filter (fun l => decide (l.device_id = d))).map
      (fun l => l.timestamp.toMillis)).length = 1 := by
    simpa [mkFreqRow] using h
  obtain ⟨a, ha⟩ := List.length_eq_one.mp hts
  simp [mkFreqRow, ha, minList, maxList]

theorem freq_cond_eq (c : Nat) (diff : Int) :
    (if 0 < diff then (c : ℚ) / ((diff : ℚ) / 3600000) else 0)
      = if 0 < (diff : ℚ) / 3600000 then (c : ℚ) / ((diff : ℚ) / 3600000)
        else 0 := by
  have key : (0 < (diff : ℚ) / 3600000) ↔ 0 < diff := by
    rw [div_pos_iff]
    constructor
    · rintro (⟨h, _⟩ | ⟨_, h⟩)
      · exact_mod_cast h
      · norm_num at h
    · intro h
      exact Or.inl ⟨by exact_mod_cast h, by norm_num⟩
  by_cases h : (0 : Int) < diff
  · rw [if_pos h, if_pos (key.mpr h)]
  · rw [if_neg h, if_neg (fun hc => h (key.mp hc))]

theorem mkFreqRow_frequency (m : List LogDoc) (d : String) :
    (mkFreqRow m d).frequency
      = if 0 < (mkFreqRow m d).duration_hours
        then ((mkFreqRow m d).count : ℚ) / (mkFreqRow m d).duration_hours
        else 0 := by
  simp only [mkFreqRow]
  exact freq_cond_eq _ _

theorem mkHourBucket_key (m : List LogDoc) (k : Nat × Nat × Nat × Nat) :
    ((mkHourBucket m k).year, (mkHourBucket m k).month,
      (mkHourBucket m k).day, (mkHourBucket m k).hour) = k := rfl

theorem hourRows_count_eq (m : List LogDoc) (b : HourBucket)
    (hb : b ∈ hourRows m) :
    b.count = (m.filter (fun l =>
        decide (hourKey l = (b.year, b.month, b.day, b.hour)))).length := by
  rw [hourRows, groupKeys] at hb
  obtain ⟨k, hk, rfl⟩ := List.mem_map.mp hb
  rw [mkHourBucket_key]
  rfl

theorem hourRows_count_pos (m : List LogDoc) (b : HourBucket)
    (hb : b ∈ hourRows m) : 0 < b.count := by
  have hbk := hb
  rw [hourRows, groupKeys] at hbk
  obtain ⟨k, hk, rfl⟩ := List.mem_map.mp hbk
  obtain ⟨l, hl, hlk⟩ := List.mem_map.mp ((mem_dedupKeys _ _).mp hk)
  have hmem : l ∈ m.filter (fun l => decide (hourKey l = k)) :=
    List.mem_filter.mpr ⟨hl, by simp [hlk]⟩
  exact List.length_pos.mpr (List.ne_nil_of_mem hmem)

theorem hourRows_coverage (m : List LogDoc) (k : Nat × Nat × Nat × Nat) :
    (∃ b ∈ hourRows m, (b.year, b.month, b.day, b.hour) = k) ↔
      ∃ l ∈ m, hourKey l = k := by
  constructor
  · rintro ⟨b, hb, hkey⟩
    rw [hourRows, groupKeys] at hb
    obtain ⟨k', hk', rfl⟩ := List.mem_map.mp hb
    rw [mkHourBucket_key] at hkey
    subst hkey
    obtain ⟨l, hl, hlk⟩ := List.mem_map.mp ((mem_dedupKeys _ _).mp hk')
    exact ⟨l, hl, hlk⟩
  · rintro ⟨l, hl, rfl⟩
    refine ⟨mkHourBucket m (hourKey l), ?_, mkHourBucket_key _ _⟩
    rw [hourRows, groupKeys]
    exact List.mem_map.mpr ⟨hourKey l,
      (mem_dedupKeys _ _).mpr (List.mem_map.mpr ⟨l, hl, rfl⟩), rfl⟩

/-- C2: the per-device frequency aggregation produces (before ranking) one
row for exactly every device with at least one matching log; each row's
`count` is the device's matching-log count,
`duration_hours = (last_log - first_log) / 3600000`, and
`frequency = count / duration_hours` when `duration_hours > 0`, else `0`
— so a device with exactly one matching log has frequency 0; the final
result is sorted descending by `frequency` and truncated to 10 rows; a
device with 3 logs spanning exactly 2 hours gets frequency 3/2 = 1.5. -/
theorem c2_device_frequency_aggregation :
    (∀ (m : List LogDoc) (d : String),
        (∃ r ∈ freqRows m, r.device_id = d) ↔ ∃ l ∈ m, l.device_id = d) ∧
    (∀ (m : List LogDoc) (r : FreqRow), r ∈ freqRows m →
        r = mkFreqRow m r.device_id ∧
        r.count = (m.filter (fun l => decide (l.device_id = r.device_id))).length ∧
        (r.count = 1 → r.frequency = 0)) ∧
    (∀ (m : List LogDoc) (d : String),
        (mkFreqRow m d).duration_hours
            = ((maxList ((m.filter (fun l => decide (l.device_id = d))).map
                  (fun l => l.timestamp.toMillis))
                - minList ((m.filter (fun l => decide (l.device_id = d))).map
                  (fun l => l.timestamp.toMillis)) : Int) : ℚ) / 3600000 ∧
        (mkFreqRow m d).frequency
            = if 0 < (mkFreqRow m d).duration_hours
              then ((mkFreqRow m d).count : ℚ) / (mkFreqRow m d).duration_hours
              else 0) ∧
    (∀ (logs : List LogDoc) (c : MatchConds),
        device_frequency logs c
            = (List.insertionSort freqGe
                (freqRows (logs.filter (logMatches c)))).take 10 ∧
        List.Sorted freqGe (device_frequency logs c) ∧
        (device_frequency logs c).length ≤ 10 ∧
        (∀ r ∈ device_frequency logs c,
            r ∈ freqRows (logs.filter (logMatches c)))) ∧
    device_frequency
        [⟨"DEV0001", "info", ⟨2024, 1, 1, 12, 0, 0, 0⟩, "m", []⟩,
         ⟨"DEV0001", "info", ⟨2024, 1, 1, 13, 0, 0, 0⟩, "m", []⟩,
         ⟨"DEV0001", "info", ⟨2024, 1, 1, 14, 0, 0, 0⟩, "m", []⟩]
        ⟨none, none, none⟩
      = [⟨"DEV0001", 3, 2, 3 / 2⟩] := by
  refine ⟨freqRows_coverage, ?_, ?_, ?_, by with_unfolding_all decide⟩
  · intro m r hr
    have heq := freqRows_eq_mkFreqRow m r hr
    refine ⟨heq, ?_, ?_⟩
    · rw [heq, mkFreqRow_count, mkFreqRow_device_id]
    · intro h1
      rw [heq]
      exact mkFreqRow_single m r.device_id (by rw [← heq]; exact h1)
  · intro m d
    exact ⟨rfl, mkFreqRow_frequency m d⟩
  · intro logs c
    refine ⟨rfl, ?_, List.length_take_le _ _, ?_⟩
    · exact List.Pairwise.sublist (List.take_sublist _ _)
        (List.sorted_insertionSort freqGe _)
    · intro r hr
      exact (List.mem_insertionSort freqGe).mp
        ((List.take_sublist _ _).subset hr)

/-- Closed instance of C2: a device with a single matching log gets
frequency 0 through the pipeline's guarded division. -/
theorem c2_device_frequency_aggregation_witness :
    (mkFreqRow [⟨"DEV0001", "info", ⟨2024, 1, 1, 12, 0, 0, 0⟩, "m", []⟩]
        "DEV0001").frequency = 0 :=
  (c2_device_frequency_aggregation.2.1
    [⟨"DEV0001", "info", ⟨2024, 1, 1, 12, 0, 0, 0⟩, "m", []⟩]
    (mkFreqRow [⟨"DEV0001", "info", ⟨2024, 1, 1, 12, 0, 0, 0⟩, "m", []⟩]
      "DEV0001")
    (by with_unfolding_all decide)).2.2 (by with_unfolding_all decide)

/-- C6: the hourly aggregation buckets matching logs by the
(year, month, day, hour) of their timestamp: one bucket per occupied key
(a key appears iff some matching log has it — zero-count buckets never
appear, and every emitted bucket counts exactly the matching logs of its
key), sorted ascending by the bucket key and truncated to at most 24
buckets. -/
theorem c6_hourly_bucketing :
    (∀ (m : List LogDoc) (k : Nat × Nat × Nat × Nat),
        (∃ b ∈ hourRows m, (b.year, b.month, b.day, b.hour) = k) ↔
        ∃ l ∈ m, hourKey l = k) ∧
    (∀ (m : List LogDoc) (b : HourBucket), b ∈ hourRows m →
        b.count = (m.filter (fun l =>
            decide (hourKey l = (b.year, b.month, b.day, b.hour)))).length ∧
        0 < b.count) ∧
    (∀ (logs : List LogDoc) (c : MatchConds),
        hourly_stats logs c
            = (List.insertionSort bucketLe
                (hourRows (logs.filter (logMatches c)))).take 24 ∧
        List.Sorted bucketLe (hourly_stats logs c) ∧
        (hourly_stats logs c).length ≤ 24 ∧
        (∀ b ∈ hourly_stats logs c,
            b ∈ hourRows (logs.filter (logMatches c)) ∧
            0 < b.count ∧
            b.count = ((logs.filter (logMatches c)).filter (fun l =>
                decide (hourKey l = (b.year, b.month, b.day, b.hour)))).length)) ∧
    hourly_stats
        [⟨"DEV0001", "info", ⟨2024, 1, 1, 14, 0, 0, 0⟩, "m", []⟩,
         ⟨"DEV0001", "info", ⟨2024, 1, 1, 12, 0, 0, 0⟩, "m", []⟩,
         ⟨"DEV0002", "info", ⟨2024, 1, 1, 12, 30, 0, 0⟩, "m", []⟩]
        ⟨none, none, none⟩
      = [⟨2024, 1, 1, 12, 2⟩, ⟨2024, 1, 1, 14, 1⟩] := by
  refine ⟨hourRows_coverage, ?_, ?_, by decide⟩
  · intro m b hb
    exact ⟨hourRows_count_eq m b hb, hourRows_count_pos m b hb⟩
  · intro logs c
    refine ⟨rfl, ?_, List.length_take_le _ _, ?_⟩
    · exact List.Pairwise.sublist (List.take_sublist _ _)
        (List.sorted_insertionSort bucketLe _)
    · intro b hb
      have hmem : b ∈ hourRows (logs.filter (logMatches c)) :=
        (List.mem_insertionSort bucketLe).mp
          ((List.take_sublist _ _).subset hb)
      exact ⟨hmem, hourRows_count_pos _ _ hmem, hourRows_count_eq _ _ hmem⟩

/-- Closed instance of C6: a bucket emitted by the pipeline on a concrete
input has a positive count and counts exactly its hour's logs. -/
theorem c6_hourly_bucketing_witness :
    (⟨2024, 1, 1, 12, 2⟩ : HourBucket).count
        = (([⟨"DEV0001", "info", ⟨2024, 1, 1, 12, 0, 0, 0⟩, "m", []⟩,
             ⟨"DEV0002", "info", ⟨2024, 1, 1, 12, 30, 0, 0⟩, "m", []⟩]
               : List LogDoc).filter (fun l =>
             decide (hourKey l = (2024, 1, 1, 12)))).length ∧
    0 < (⟨2024, 1, 1, 12, 2⟩ : HourBucket).count :=
  ⟨(c6_hourly_bucketing.2.1
      [⟨"DEV0001", "info", ⟨2024, 1, 1, 12, 0, 0, 0⟩, "m", []⟩,
       ⟨"DEV0002", "info", ⟨2024, 1, 1, 12, 30, 0, 0⟩, "m", []⟩]
      ⟨2024, 1, 1, 12, 2⟩ (by decide)).1,
    (c6_hourly_bucketing.2.1
      [⟨"DEV0001", "info", ⟨2024, 1, 1, 12, 0, 0, 0⟩, "m", []⟩,
       ⟨"DEV0002", "info", ⟨2024, 1, 1, 12, 30, 0, 0⟩, "m", []⟩]
      ⟨2024, 1, 1, 12, 2⟩ (by decide)).2⟩

end SmartHome
